import Mathlib

/-!
Shallow embedding of the AgentOps monitoring core (src/agentops.py):
the AgentEvent record, the AgentMonitor (event store, statistics,
baseline and drift detection), the instrumentation wrapper produced by
record_action, the JSON export, and the module-level global entry
points.

Conventions. Python floats are modelled as rationals. Wall-clock
measurements (the completion timestamp, the measured latency) and the
time-derived session id produced by _generate_session_id (an md5 of the
current time) are nondeterministic inputs of the environment and appear
as explicit parameters. A Python call that may raise is modelled as
returning Except, where Except.error carries the exception; a wrapped
operation is a function into Except with an arbitrary exception type
and a stringifier standing for str(e). Python dicts are modelled as
insertion-ordered association lists, and the empty baseline_stats dict
(falsy in Python) as Option.none.
-/

/-- One monitoring event, mirroring the AgentEvent dataclass of
src/agentops.py. -/
structure AgentEvent where
  timestamp : String
  action_type : String
  latency_ms : ℚ
  token_usage : List (String × ℤ)
  model : String
  success : Bool
  error_message : Option String := none
  session_id : Option String := none
  metadata : Option (List (String × String)) := none
deriving DecidableEq

/-- The baseline snapshot dict built by establish_baseline, with keys
avg_latency, avg_tokens, event_count. -/
structure BaselineStats where
  avg_latency : ℚ
  avg_tokens : ℚ
  event_count : Nat
deriving DecidableEq

/-- The AgentMonitor state. baseline_stats starts as the empty dict,
modelled as none; a populated snapshot is some. -/
structure AgentMonitor where
  api_key : Option String
  project_name : String
  session_id : String
  events : List AgentEvent
  baseline_stats : Option BaselineStats
  drift_threshold : ℚ
deriving DecidableEq

/-- The drift alert emitted (printed) by _check_drift, carrying the
baseline latency, the current latency and the relative change. -/
structure DriftSignal where
  baseline_latency : ℚ
  current_latency : ℚ
  latency_change : ℚ
deriving DecidableEq

/-- AgentMonitor.__init__: fresh monitor with empty event list, empty
baseline dict and drift threshold 0.2. The session id, derived in the
source from the construction time via md5, enters as the parameter
sid. -/
def AgentMonitor.make (api_key : Option String) (project_name : String)
    (sid : String) : AgentMonitor :=
  { api_key := api_key
    project_name := project_name
    session_id := sid
    events := []
    baseline_stats := none
    drift_threshold := 0.2 }

/-- self.baseline_stats.get("avg_latency", 0) in _check_drift. -/
def AgentMonitor.baseline_avg_latency (m : AgentMonitor) : ℚ :=
  match m.baseline_stats with
  | some b => b.avg_latency
  | none => 0

/-- AgentMonitor._check_drift: divides by the baseline latency only
under the positivity guard and alerts when the relative change strictly
exceeds the threshold. The printed alert is returned as an optional
DriftSignal. -/
def AgentMonitor.check_drift (m : AgentMonitor) (e : AgentEvent) :
    Option DriftSignal :=
  let baseline_latency := m.baseline_avg_latency
  if 0 < baseline_latency then
    let latency_change := |e.latency_ms - baseline_latency| / baseline_latency
    if m.drift_threshold < latency_change then
      some { baseline_latency := baseline_latency
             current_latency := e.latency_ms
             latency_change := latency_change }
    else none
  else none

/-- AgentMonitor.record_event: assigns the session id, appends the
event, then checks drift only when baseline_stats is non-empty (truthy).
Returns the updated monitor and the drift signal, if any. -/
def AgentMonitor.record_event (m : AgentMonitor) (e : AgentEvent) :
    AgentMonitor × Option DriftSignal :=
  let e' := { e with session_id := some m.session_id }
  let m' := { m with events := m.events ++ [e'] }
  match m'.baseline_stats with
  | some _ => (m', m'.check_drift e')
  | none => (m', none)

/-- The event constructed in the finally block of the wrapper inside
AgentMonitor.record_action: success and error_message reflect whether
the wrapped call raised, token usage defaults to zero counters, the
model is unknown, and metadata captures str(args) and str(kwargs). -/
def wrapperEvent {β ε : Type} (strE : ε → String) (action_type : String)
    (outcome : Except ε β) (timestamp : String) (latency_ms : ℚ)
    (argsStr kwargsStr : String) : AgentEvent :=
  { timestamp := timestamp
    action_type := action_type
    latency_ms := latency_ms
    token_usage := [("prompt", 0), ("completion", 0), ("total", 0)]
    model := "unknown"
    success := match outcome with | Except.ok _ => true | Except.error _ => false
    error_message :=
      match outcome with | Except.ok _ => none | Except.error ex => some (strE ex)
    session_id := none
    metadata := some [("args", argsStr), ("kwargs", kwargsStr)] }

/-- The wrapper closure built by AgentMonitor.record_action: runs the
wrapped function once, builds the event in the finally block, records
it, and passes the outcome (return value or raised exception)
through unchanged. timestamp and latency_ms are the measured times. -/
def wrapper {α β ε : Type} (strE : ε → String) (m : AgentMonitor)
    (action_type : String) (func : α → Except ε β) (x : α)
    (timestamp : String) (latency_ms : ℚ) (argsStr kwargsStr : String) :
    Except ε β × AgentMonitor × Option DriftSignal :=
  let outcome := func x
  let ev := wrapperEvent strE action_type outcome timestamp latency_ms argsStr kwargsStr
  let r := m.record_event ev
  (outcome, r.1, r.2)

/-- AgentMonitor.record_action applied to a function: the instrumented
operation. -/
def AgentMonitor.record_action {α β ε : Type} (m : AgentMonitor)
    (strE : ε → String) (action_type : String) (func : α → Except ε β) :
    α → String → ℚ → String → String →
      Except ε β × AgentMonitor × Option DriftSignal :=
  fun x timestamp latency_ms argsStr kwargsStr =>
    wrapper strE m action_type func x timestamp latency_ms argsStr kwargsStr

/-- The statistics dict returned by get_stats on a non-empty store. -/
structure Stats where
  total_events : Nat
  success_rate : ℚ
  avg_latency_ms : ℚ
  session_id : String
  project : String
deriving DecidableEq

/-- Result of AgentMonitor.get_stats: either the no-data message dict
or the statistics dict. -/
inductive StatsResult where
  | message (msg : String)
  | stats (s : Stats)
deriving DecidableEq

/-- AgentMonitor.get_stats. -/
def AgentMonitor.get_stats (m : AgentMonitor) : StatsResult :=
  if m.events = [] then StatsResult.message "No events recorded yet"
  else
    StatsResult.stats
      { total_events := m.events.length
        success_rate := (m.events.countP (·.success) : ℚ) / (m.events.length : ℚ)
        avg_latency_ms := (m.events.map (·.latency_ms)).sum / (m.events.length : ℚ)
        session_id := m.session_id
        project := m.project_name }

/-- AgentMonitor.establish_baseline: after the advisory sleep (the
duration only delays the call), snapshots avg latency and event count
over the current store when it is non-empty; otherwise leaves the state
untouched. -/
def AgentMonitor.establish_baseline (m : AgentMonitor)
    (_duration_seconds : Nat) : AgentMonitor :=
  if m.events = [] then m
  else
    let snapshot : BaselineStats :=
      { avg_latency := (m.events.map (·.latency_ms)).sum / (m.events.length : ℚ)
        avg_tokens := 0
        event_count := m.events.length }
    { m with baseline_stats := some snapshot }

/-- JSON documents as written by json.dump: Python ints and floats are
distinct. -/
inductive Json where
  | null
  | bool (b : Bool)
  | int (n : ℤ)
  | num (q : ℚ)
  | str (s : String)
  | arr (elems : List Json)
  | obj (fields : List (String × Json))

/-- Serialization of an optional string field: Python None becomes
null. -/
def optStrToJson : Option String → Json
  | none => Json.null
  | some s => Json.str s

/-- Serialization of the token_usage dict. -/
def tokenUsageToJson (tu : List (String × ℤ)) : Json :=
  Json.obj (tu.map (fun p => (p.1, Json.int p.2)))

/-- Serialization of the optional metadata dict. -/
def metadataToJson : Option (List (String × String)) → Json
  | none => Json.null
  | some l => Json.obj (l.map (fun p => (p.1, Json.str p.2)))

/-- AgentEvent.to_dict followed by json.dump: one object per record,
fields in dataclass declaration order, None as null. -/
def eventToJson (e : AgentEvent) : Json :=
  Json.obj
    [("timestamp", Json.str e.timestamp),
     ("action_type", Json.str e.action_type),
     ("latency_ms", Json.num e.latency_ms),
     ("token_usage", tokenUsageToJson e.token_usage),
     ("model", Json.str e.model),
     ("success", Json.bool e.success),
     ("error_message", optStrToJson e.error_message),
     ("session_id", optStrToJson e.session_id),
     ("metadata", metadataToJson e.metadata)]

/-- AgentMonitor.export_events: the JSON document written to the file,
one array holding every stored event in append order. -/
def AgentMonitor.export_events (m : AgentMonitor) : Json :=
  Json.arr (m.events.map eventToJson)

/-- Parser for an optional string field. -/
def optStrFromJson : Json → Option (Option String)
  | Json.null => some none
  | Json.str s => some (some s)
  | _ => none

/-- Parser for a JSON object of integer counters. -/
def intPairsFromJson : List (String × Json) → Option (List (String × ℤ))
  | [] => some []
  | (k, Json.int n) :: rest => (intPairsFromJson rest).map (fun l => (k, n) :: l)
  | _ => none

/-- Parser for the token_usage field. -/
def tokenUsageFromJson : Json → Option (List (String × ℤ))
  | Json.obj fields => intPairsFromJson fields
  | _ => none

/-- Parser for a JSON object of string values. -/
def strPairsFromJson : List (String × Json) → Option (List (String × String))
  | [] => some []
  | (k, Json.str s) :: rest => (strPairsFromJson rest).map (fun l => (k, s) :: l)
  | _ => none

/-- Parser for the optional metadata field. -/
def metadataFromJson : Json → Option (Option (List (String × String)))
  | Json.null => some none
  | Json.obj fields => (strPairsFromJson fields).map some
  | _ => none

/-- Parser for one exported event object, reading back exactly the
field layout written by eventToJson. -/
def eventFromJson : Json → Option AgentEvent
  | Json.obj [("timestamp", Json.str ts), ("action_type", Json.str act),
      ("latency_ms", Json.num lat), ("token_usage", tu),
      ("model", Json.str md), ("success", Json.bool sc),
      ("error_message", em), ("session_id", sid), ("metadata", meta)] => do
      let tu' ← tokenUsageFromJson tu
      let em' ← optStrFromJson em
      let sid' ← optStrFromJson sid
      let meta' ← metadataFromJson meta
      some { timestamp := ts, action_type := act, latency_ms := lat,
             token_usage := tu', model := md, success := sc,
             error_message := em', session_id := sid', metadata := meta' }
  | _ => none

/-- Parser for a list of exported event objects. -/
def eventListFromJson : List Json → Option (List AgentEvent)
  | [] => some []
  | j :: rest =>
    match eventFromJson j, eventListFromJson rest with
    | some e, some es => some (e :: es)
    | _, _ => none

/-- Parser for the exported JSON document. -/
def eventsFromJson : Json → Option (List AgentEvent)
  | Json.arr elems => eventListFromJson elems
  | _ => none

/-- Module-level init: replaces the global monitor with a freshly
constructed one, regardless of any previous global state. -/
def init (_prev : Option AgentMonitor) (api_key : Option String)
    (project_name : String) (sid : String) : AgentMonitor :=
  AgentMonitor.make api_key project_name sid

/-- Module-level record_action: raises RuntimeError when the global
monitor is none, otherwise returns the decorator bound to the active
monitor. -/
def record_action {α β ε : Type} (strE : ε → String)
    (g : Option AgentMonitor) (action_type : String) :
    Except String ((α → Except ε β) → α → String → ℚ → String → String →
      Except ε β × AgentMonitor × Option DriftSignal) :=
  match g with
  | none => Except.error "AgentOps not initialized. Call agentops.init() first."
  | some m => Except.ok (fun func => m.record_action strE action_type func)

/-- Result of the module-level get_stats: either the error dict
returned when the global monitor is none, or the result of the method
call. -/
inductive GlobalStatsResult where
  | errorDict (error : String)
  | result (r : StatsResult)
deriving DecidableEq

/-- Module-level get_stats: never raises; when the global monitor is
none it returns the error dict instead of the statistics. -/
def get_stats (g : Option AgentMonitor) : Except String GlobalStatsResult :=
  match g with
  | none => Except.ok (GlobalStatsResult.errorDict "AgentOps not initialized")
  | some m => Except.ok (GlobalStatsResult.result m.get_stats)

/-- Module-level export_events: raises RuntimeError when the global
monitor is none, otherwise writes the export document to the given
path (modelled as returning the path together with the document). -/
def export_events (g : Option AgentMonitor) (filepath : String) :
    Except String (String × Json) :=
  match g with
  | none => Except.error "AgentOps not initialized"
  | some m => Except.ok (filepath, m.export_events)

/-! Concrete fixtures used by the witness theorems. -/

/-- A freshly initialized monitor. -/
def mFresh : AgentMonitor := AgentMonitor.make none "demo" "abc123def456"

/-- Event with latency 10, success. -/
def evA : AgentEvent :=
  { timestamp := "t1", action_type := "agent_action", latency_ms := 10,
    token_usage := [("prompt", 0), ("completion", 0), ("total", 0)],
    model := "unknown", success := true, error_message := none,
    session_id := some "s3", metadata := none }

/-- Event with latency 20, success. -/
def evB : AgentEvent := { evA with timestamp := "t2", latency_ms := 20 }

/-- Event with latency 30, failure. -/
def evC : AgentEvent :=
  { evA with
    timestamp := "t3"
    latency_ms := 30
    success := false
    error_message := some "boom" }

/-- Monitor holding the three fixture events. -/
def m3 : AgentMonitor :=
  { api_key := none, project_name := "demo", session_id := "s3",
    events := [evA, evB, evC], baseline_stats := none, drift_threshold := 0.2 }

/-- Baseline snapshot with average latency 100. -/
def baseline100 : BaselineStats :=
  { avg_latency := 100, avg_tokens := 0, event_count := 1 }

/-- Monitor with an established baseline of average latency 100. -/
def m100 : AgentMonitor :=
  { api_key := none, project_name := "demo", session_id := "s100",
    events := [evA], baseline_stats := some baseline100,
    drift_threshold := 0.2 }

/-- Incoming event with latency 125 (25 percent above baseline 100). -/
def e125 : AgentEvent := { evA with timestamp := "t4", latency_ms := 125 }

/-- Incoming event with latency 115 (15 percent above baseline 100). -/
def e115 : AgentEvent := { evA with timestamp := "t5", latency_ms := 115 }

/-- Degenerate baseline snapshot with average latency 0. -/
def baselineZero : BaselineStats :=
  { avg_latency := 0, avg_tokens := 0, event_count := 0 }

/-- Monitor whose baseline snapshot has average latency 0. -/
def mZero : AgentMonitor :=
  { api_key := none, project_name := "demo", session_id := "sz",
    events := [], baseline_stats := some baselineZero, drift_threshold := 0.2 }

/-- A fallible operation: raises on input 0, returns n + 1 otherwise. -/
def funcBoom : Nat → Except String Nat :=
  fun n => if n = 0 then Except.error "boom" else Except.ok (n + 1)

/-- C1: the instrumented operation built by record_action passes the
wrapped outcome through unchanged: on normal return the caller receives
exactly the value of func at x, and when func raises, the identical
exception (the same Except.error payload) reaches the caller after
recording; monitoring never swallows or alters the outcome. -/
theorem wrapper_passthrough {α β ε : Type} (strE : ε → String)
    (m : AgentMonitor) (action_type : String) (func : α → Except ε β)
    (x : α) (timestamp : String) (latency_ms : ℚ)
    (argsStr kwargsStr : String) :
    (m.record_action strE action_type func x timestamp latency_ms argsStr kwargsStr).1
      = func x := rfl

/-- C5: get_stats on an empty store returns the no-data message dict,
a defined sentinel, with no division performed and no failure. -/
theorem get_stats_empty_sentinel (m : AgentMonitor) (h : m.events = []) :
    m.get_stats = StatsResult.message "No events recorded yet" := by
  simp [AgentMonitor.get_stats, h]

/-- Witness for C5 at the fresh monitor. -/
theorem get_stats_empty_sentinel_witness :
    mFresh.events = [] ∧
    mFresh.get_stats = StatsResult.message "No events recorded yet" :=
  ⟨rfl, get_stats_empty_sentinel mFresh rfl⟩

/-- C6 counterexample: the module-level get_stats invoked before init
does not fail: it returns normally, carrying the error dict, so the
claim that every core operation fails with an uninitialized error is
false for the stats query. -/
theorem get_stats_uninitialized_returns_normally :
    get_stats none
      = Except.ok (GlobalStatsResult.errorDict "AgentOps not initialized") := rfl

/-- C6 amended: before init, record_action and export_events raise a
RuntimeError naming the uninitialized state, fatal to the call, while
get_stats returns normally with an error dict instead of statistics. -/
theorem uninitialized_core_operations {α β ε : Type} (strE : ε → String)
    (action_type filepath : String) :
    @record_action α β ε strE none action_type
      = Except.error "AgentOps not initialized. Call agentops.init() first." ∧
    export_events none filepath = Except.error "AgentOps not initialized" ∧
    get_stats none
      = Except.ok (GlobalStatsResult.errorDict "AgentOps not initialized") :=
  ⟨rfl, rfl, rfl⟩

/-- C10: init constructs a fresh monitor state: empty event store, no
baseline, drift threshold 0.2, the newly generated session id and the
given project name; the result is independent of whatever monitor state
was previously active, so re-initialization discards all previously
recorded events and any established baseline. -/
theorem init_fresh_state (prev : Option AgentMonitor)
    (api_key : Option String) (project_name : String) (sid : String) :
    (init prev api_key project_name sid).events = [] ∧
    (init prev api_key project_name sid).baseline_stats = none ∧
    (init prev api_key project_name sid).drift_threshold = 0.2 ∧
    (init prev api_key project_name sid).session_id = sid ∧
    (init prev api_key project_name sid).project_name = project_name ∧
    ∀ prev' : Option AgentMonitor,
      init prev api_key project_name sid = init prev' api_key project_name sid :=
  ⟨rfl, rfl, rfl, rfl, rfl, fun _ => rfl⟩

/-- C2: on a non-empty store of n events, get_stats returns the
statistics dict whose total is n, whose success rate is the number of
successful events over n (a fraction between 0 and 1), whose average
latency is the arithmetic mean of latency over all n events, together
with the session id and project name. -/
theorem get_stats_nonempty_spec (m : AgentMonitor) (h : m.events ≠ []) :
    m.get_stats = StatsResult.stats
      { total_events := m.events.length
        success_rate := (m.events.countP (·.success) : ℚ) / (m.events.length : ℚ)
        avg_latency_ms := (m.events.map (·.latency_ms)).sum / (m.events.length : ℚ)
        session_id := m.session_id
        project := m.project_name } ∧
    0 ≤ (m.events.countP (·.success) : ℚ) / (m.events.length : ℚ) ∧
    (m.events.countP (·.success) : ℚ) / (m.events.length : ℚ) ≤ 1 := by
  have hlen : (0 : ℚ) < (m.events.length : ℚ) := by
    exact_mod_cast List.length_pos.mpr h
  refine ⟨by simp [AgentMonitor.get_stats, h], ?_, ?_⟩
  · positivity
  · rw [div_le_one hlen]
    exact_mod_cast List.countP_le_length _

/-- Witness for C2 at the fixture store with latencies 10, 20, 30 and
successes true, true, false: three events, success rate 2/3, average
latency 20. -/
theorem get_stats_nonempty_spec_witness :
    m3.get_stats = StatsResult.stats
      { total_events := 3
        success_rate := 2/3
        avg_latency_ms := 20
        session_id := "s3"
        project := "demo" } := by
  rw [(get_stats_nonempty_spec m3 (by decide)).1]
  norm_num [m3, evA, evB, evC, List.countP_cons, List.countP_nil]

/-- C4: while a baseline with positive average latency is set, recording
an event emits a drift signal if and only if the relative deviation of
the event latency from the baseline strictly exceeds the drift
threshold, and the signal carries the baseline latency, the current
latency and the deviation fraction. -/
theorem record_event_drift_signal_iff (m : AgentMonitor) (e : AgentEvent)
    (bs : BaselineStats) (hb : m.baseline_stats = some bs)
    (hpos : 0 < bs.avg_latency) :
    (m.record_event e).2 =
      (if m.drift_threshold < |e.latency_ms - bs.avg_latency| / bs.avg_latency
       then some
         { baseline_latency := bs.avg_latency
           current_latency := e.latency_ms
           latency_change := |e.latency_ms - bs.avg_latency| / bs.avg_latency }
       else none) := by
  simp only [AgentMonitor.record_event, AgentMonitor.check_drift,
    AgentMonitor.baseline_avg_latency, hb]
  rw [if_pos hpos]

/-- Witness for C4: against baseline 100 with threshold 0.2, latency 125
(25 percent deviation) signals drift with deviation 1/4, and latency 115
(15 percent deviation) does not. -/
theorem record_event_drift_signal_iff_witness :
    (m100.record_event e125).2 = some
      { baseline_latency := 100, current_latency := 125, latency_change := 1/4 } ∧
    (m100.record_event e115).2 = none := by
  constructor
  · rw [record_event_drift_signal_iff m100 e125 baseline100 rfl (by norm_num [baseline100])]
    norm_num [m100, e125, evA, baseline100]
  · rw [record_event_drift_signal_iff m100 e115 baseline100 rfl (by norm_num [baseline100])]
    norm_num [m100, e115, evA, baseline100]

/-- C8: the drift check divides by the baseline average latency only
under the positivity guard: when the stored baseline average latency is
zero the check is skipped and no signal is produced, and any produced
signal has a strictly positive baseline latency, equal to the stored
one, with the deviation computed against it. -/
theorem check_drift_zero_baseline_guard (m : AgentMonitor) (e : AgentEvent) :
    (m.baseline_avg_latency = 0 → m.check_drift e = none) ∧
    (∀ s : DriftSignal, m.check_drift e = some s →
      0 < s.baseline_latency ∧ s.baseline_latency = m.baseline_avg_latency ∧
      s.latency_change = |e.latency_ms - m.baseline_avg_latency| / m.baseline_avg_latency) := by
  constructor
  · intro h
    simp [AgentMonitor.check_drift, h]
  · intro s hs
    simp only [AgentMonitor.check_drift] at hs
    split at hs
    · split at hs
      · rename_i hpos _
        cases hs
        exact ⟨hpos, rfl, rfl⟩
      · cases hs
    · cases hs

/-- Witness for C8 at a monitor whose baseline snapshot has average
latency 0: the drift check is skipped. -/
theorem check_drift_zero_baseline_guard_witness :
    mZero.baseline_avg_latency = 0 ∧ mZero.check_drift e125 = none :=
  ⟨rfl, (check_drift_zero_baseline_guard mZero e125).1 rfl⟩

/-- C9: establishing a baseline over an empty store is a no-op: the
monitor is unchanged, the baseline stays absent (NoBaseline), and
recording a subsequent event performs no drift check as long as no
baseline has been established. -/
theorem establish_baseline_empty_noop (m : AgentMonitor)
    (duration_seconds : Nat) (h : m.events = [])
    (hb : m.baseline_stats = none) :
    m.establish_baseline duration_seconds = m ∧
    (m.establish_baseline duration_seconds).baseline_stats = none ∧
    ∀ e : AgentEvent,
      ((m.establish_baseline duration_seconds).record_event e).2 = none := by
  have hm : m.establish_baseline duration_seconds = m := by
    simp [AgentMonitor.establish_baseline, h]
  refine ⟨hm, by rw [hm, hb], ?_⟩
  intro e
  rw [hm]
  simp [AgentMonitor.record_event, hb]

/-- Witness for C9 at the fresh monitor. -/
theorem establish_baseline_empty_noop_witness :
    mFresh.events = [] ∧ mFresh.baseline_stats = none ∧
    mFresh.establish_baseline 300 = mFresh ∧
    ((mFresh.establish_baseline 300).record_event e115).2 = none := by
  have h := establish_baseline_empty_noop mFresh 300 rfl rfl
  exact ⟨rfl, rfl, h.1, h.2.2 e115⟩

/-- C3: each invocation of the instrumented operation appends exactly
one event to the store, after the wrapped operation completed, whatever
the outcome was (the same append equation holds for normal return and
for raise, and for any baseline state, so drift signalling never
prevents recording); the appended event carries the monitor session id,
its error message is present exactly when success is false, a normal
return yields success true with no error message, and a raise yields
success false with the stringified failure. -/
theorem wrapper_records_exactly_one_event {α β ε : Type} (strE : ε → String)
    (m : AgentMonitor) (action_type : String) (func : α → Except ε β)
    (x : α) (timestamp : String) (latency_ms : ℚ)
    (argsStr kwargsStr : String) :
    (wrapper strE m action_type func x timestamp latency_ms argsStr kwargsStr).2.1.events
      = m.events ++
        [{ wrapperEvent strE action_type (func x) timestamp latency_ms argsStr kwargsStr with
             session_id := some m.session_id }] ∧
    ((wrapperEvent strE action_type (func x) timestamp latency_ms argsStr kwargsStr).error_message.isSome
      ↔ (wrapperEvent strE action_type (func x) timestamp latency_ms argsStr kwargsStr).success = false) ∧
    (∀ r : β, func x = Except.ok r →
      (wrapperEvent strE action_type (func x) timestamp latency_ms argsStr kwargsStr).success = true ∧
      (wrapperEvent strE action_type (func x) timestamp latency_ms argsStr kwargsStr).error_message = none) ∧
    (∀ ex : ε, func x = Except.error ex →
      (wrapperEvent strE action_type (func x) timestamp latency_ms argsStr kwargsStr).success = false ∧
      (wrapperEvent strE action_type (func x) timestamp latency_ms argsStr kwargsStr).error_message
        = some (strE ex)) := by
  refine ⟨?_, ?_, ?_, ?_⟩
  · show (m.record_event _).1.events = _
    unfold AgentMonitor.record_event
    cases m.baseline_stats <;> rfl
  · cases func x <;> simp [wrapperEvent]
  · intro r hr
    rw [hr]
    exact ⟨rfl, rfl⟩
  · intro ex hex
    rw [hex]
    exact ⟨rfl, rfl⟩

/-- Witness for C3: the instrumented funcBoom at input 0 (a raise)
appends exactly one failure event to the fresh monitor. -/
theorem wrapper_records_exactly_one_event_witness :
    (wrapper id mFresh "agent_action" funcBoom 0 "t" 5 "a" "k").2.1.events
      = mFresh.events ++
        [{ wrapperEvent id "agent_action" (funcBoom 0) "t" 5 "a" "k" with
             session_id := some mFresh.session_id }] ∧
    ((wrapperEvent id "agent_action" (funcBoom 0) "t" 5 "a" "k").error_message.isSome
      ↔ (wrapperEvent id "agent_action" (funcBoom 0) "t" 5 "a" "k").success = false) ∧
    (∀ r : Nat, funcBoom 0 = Except.ok r →
      (wrapperEvent id "agent_action" (funcBoom 0) "t" 5 "a" "k").success = true ∧
      (wrapperEvent id "agent_action" (funcBoom 0) "t" 5 "a" "k").error_message = none) ∧
    (∀ ex : String, funcBoom 0 = Except.error ex →
      (wrapperEvent id "agent_action" (funcBoom 0) "t" 5 "a" "k").success = false ∧
      (wrapperEvent id "agent_action" (funcBoom 0) "t" 5 "a" "k").error_message = some (id ex)) :=
  wrapper_records_exactly_one_event id mFresh "agent_action" funcBoom 0 "t" 5 "a" "k"

/-- Round trip for the optional string fields. -/
theorem optStrFromJson_toJson (o : Option String) :
    optStrFromJson (optStrToJson o) = some o := by
  cases o <;> rfl

/-- Round trip for a serialized integer-counter object. -/
theorem intPairsFromJson_map (l : List (String × ℤ)) :
    intPairsFromJson (l.map (fun p => (p.1, Json.int p.2))) = some l := by
  induction l with
  | nil => rfl
  | cons p rest ih =>
    obtain ⟨k, n⟩ := p
    simp [intPairsFromJson, ih]

/-- Round trip for the token_usage field. -/
theorem tokenUsageFromJson_toJson (tu : List (String × ℤ)) :
    tokenUsageFromJson (tokenUsageToJson tu) = some tu := by
  simp [tokenUsageToJson, tokenUsageFromJson, intPairsFromJson_map]

/-- Round trip for a serialized string-valued object. -/
theorem strPairsFromJson_map (l : List (String × String)) :
    strPairsFromJson (l.map (fun p => (p.1, Json.str p.2))) = some l := by
  induction l with
  | nil => rfl
  | cons p rest ih =>
    obtain ⟨k, s⟩ := p
    simp [strPairsFromJson, ih]

/-- Round trip for the metadata field. -/
theorem metadataFromJson_toJson (o : Option (List (String × String))) :
    metadataFromJson (metadataToJson o) = some o := by
  cases o with
  | none => rfl
  | some l => simp [metadataToJson, metadataFromJson, strPairsFromJson_map]

/-- Round trip for one exported event object. -/
theorem eventFromJson_toJson (e : AgentEvent) :
    eventFromJson (eventToJson e) = some e := by
  simp [eventToJson, eventFromJson, tokenUsageFromJson_toJson,
    optStrFromJson_toJson, metadataFromJson_toJson]

/-- C7: export serializes the store as one JSON array, one object per
stored event in append order, and parsing that document back yields the
stored events field-for-field, in the same order; the module-level
export_events on an active monitor writes exactly this document at the
given path. -/
theorem export_events_roundtrip (m : AgentMonitor) (filepath : String) :
    export_events (some m) filepath = Except.ok (filepath, m.export_events) ∧
    m.export_events = Json.arr (m.events.map eventToJson) ∧
    eventsFromJson m.export_events = some m.events := by
  refine ⟨rfl, rfl, ?_⟩
  show eventListFromJson (m.events.map eventToJson) = some m.events
  induction m.events with
  | nil => rfl
  | cons e rest ih => simp [eventListFromJson, eventFromJson_toJson, ih]
